import Mathlib

/-!
Verification of the ingestion/validation pipeline of the db_migration_api
repository (src/db_migration_api/utils.py and routes.py), as a shallow
embedding in Lean.

Dynamic cell values flowing through the pipeline (pandas DataFrame cells and
JSON record fields) are modelled by `Value`: a string, an integer, or a
missing value (pandas NaN).  Records produced by the validators are the
Python dicts the code builds, modelled as ordered association lists.
String primitives (strip, split, substring test, int()) are implemented
here by structural recursion over the character list so that every
definition evaluates inside the kernel.
-/

/-- Whitespace test used by Python str.strip and Lean-side trimming. -/
def isWs (c : Char) : Bool :=
  c == ' ' || c == '\t' || c == '\n' || c == '\r'

/-- Model of Python str.strip: drop whitespace from both ends. -/
def strTrim (s : String) : String :=
  String.mk (((s.data.dropWhile isWs).reverse.dropWhile isWs).reverse)

/-- Split a character list on a separator character (CSV field splitting). -/
def splitCharAux (sep : Char) : List Char → List Char → List String
  | [], acc => [String.mk acc.reverse]
  | c :: cs, acc =>
    if c == sep then String.mk acc.reverse :: splitCharAux sep cs []
    else splitCharAux sep cs (c :: acc)

/-- Split a string on a separator character. -/
def splitChar (sep : Char) (s : String) : List String :=
  splitCharAux sep s.data []

/-- Does `p` occur at the head of `cs`? -/
def leadMatch : List Char → List Char → Bool
  | [], _ => true
  | _ :: _, [] => false
  | p :: ps, c :: cs => p == c && leadMatch ps cs

/-- Does the pattern occur anywhere in the character list? -/
def hasSubAux (pat : List Char) : List Char → Bool
  | [] => leadMatch pat []
  | c :: cs => leadMatch pat (c :: cs) || hasSubAux pat cs

/-- Model of the Python membership test `pat in s` on strings. -/
def containsSub (s pat : String) : Bool :=
  hasSubAux pat.data s.data

/-- Model of Python str.endswith. -/
def strEndsWith (s suf : String) : Bool :=
  leadMatch suf.data.reverse s.data.reverse

/-- All characters are decimal digits (and the list is checked elementwise). -/
def allDigits : List Char → Bool
  | [] => true
  | c :: cs => c.isDigit && allDigits cs

/-- Numeric value of a digit list (most significant first). -/
def digitsToNat : List Char → Nat :=
  List.foldl (fun a c => a * 10 + (c.toNat - 48)) 0

/-- Model of Python int(str): strip whitespace, optional sign, digits. -/
def parseIntLit (s : String) : Option Int :=
  match (strTrim s).data with
  | [] => none
  | c :: cs =>
    if c == '-' then
      if !(cs == []) && allDigits cs then some (-(digitsToNat cs : Int)) else none
    else if c == '+' then
      if !(cs == []) && allDigits cs then some ((digitsToNat cs : Int)) else none
    else
      if allDigits (c :: cs) then some ((digitsToNat (c :: cs) : Int)) else none

/-- A dynamic cell value: a string, an integer, or missing (pandas NaN). -/
inductive Value where
  | str : String → Value
  | int : Int → Value
  | nan : Value
deriving DecidableEq

/-- Model of pandas pd.isna on a cell value. -/
def isna : Value → Bool
  | Value.nan => true
  | _ => false

/-- Model of Python str(value). -/
def pyStr : Value → String
  | Value.str s => s
  | Value.int n => toString n
  | Value.nan => "nan"

/-- Model of Python int(value): integers pass through, strings are parsed,
missing values fail (the validators test pd.isna before calling int). -/
def pyInt : Value → Option Int
  | Value.int n => some n
  | Value.str s => parseIntLit s
  | Value.nan => none

/-- The ValueError message Python raises when int() fails on a string. -/
def intCoerceMsg (v : Value) : String :=
  "invalid literal for int() with base 10: \x27" ++ pyStr v ++ "\x27"

/-- A validated record: the Python dict the validators append, as an
ordered association list from field name to value. -/
abbrev Record := List (String × Value)

/-- The parsed tabular input: named columns and rows of cell values,
modelling the pandas DataFrame the validators consume. -/
structure DataFrame where
  columns : List String
  rows : List (List Value)
deriving DecidableEq

/-- Model of row[col] on a DataFrame row. -/
def getCell (cols : List String) (row : List Value) (c : String) : Value :=
  match cols.indexOf? c with
  | some i => row.getD i Value.nan
  | none => Value.nan

/-- Join strings with a separator, by structural recursion. -/
def joinStrs (sep : String) : List String → String
  | [] => ""
  | [s] => s
  | s :: rest => s ++ sep ++ joinStrs sep rest

/-- Python repr of a list of strings, as produced by an f-string. -/
def pyListRepr (xs : List String) : String :=
  "[" ++ joinStrs ", " (xs.map (fun s => "\x27" ++ s ++ "\x27")) ++ "]"

/-- The ValueError message for absent required columns. -/
def missingMsg (missing : List String) : String :=
  "Missing required columns: " ++ pyListRepr missing

/-- Columns of `required` absent from `cols`
(the list comprehension in the validators). -/
def missingOf (required cols : List String) : List String :=
  required.filter (fun c => !(cols.contains c))

/-- A raw CSV cell after pandas type inference: empty cells become NaN,
cells of an all-integer column become integers, others stay strings. -/
def cellToValue (isInt : Bool) (c : String) : Value :=
  if strTrim c == "" then Value.nan
  else if isInt then Value.int ((parseIntLit c).getD 0)
  else Value.str c

/-- pandas column type inference: a column is integer-typed when every
non-empty cell parses as an integer literal. -/
def colAllIntish (rawRows : List (List String)) (i : Nat) : Bool :=
  rawRows.all (fun r =>
    let c := r.getD i ""
    strTrim c == "" || (parseIntLit c).isSome)

/-- Column naming of parse_csv_content: the first row is never treated as
a header; names are assigned from the column count, with the 2-column case
disambiguated by sniffing literal sample content of the first row's second
cell.  Other column counts keep the pandas integer labels. -/
def inferColumns (ncols : Nat) (rows : List (List Value)) : List String :=
  if ncols == 2 then
    let firstRow := pyStr (match rows with
      | r :: _ => r.getD 1 Value.nan
      | [] => Value.str "")
    if containsSub firstRow "Product Management" || containsSub firstRow "Sales" ||
        containsSub firstRow "Engineering" then
      ["id", "department"]
    else if containsSub firstRow "Recruiter" || containsSub firstRow "Manager" ||
        containsSub firstRow "Assistant" || containsSub firstRow "VP" then
      ["id", "job"]
    else
      ["id", "name"]
  else if ncols == 4 then ["id", "name", "datetime", "department_id"]
  else if ncols == 5 then ["id", "name", "datetime", "department_id", "job_id"]
  else (List.range ncols).map toString

/-- Embedding of utils.parse_csv_content: decode, split into lines and
comma-separated fields (pd.read_csv with header=None), apply pandas type
inference per column, then name the columns from the column count.
Ragged rows or no data at all raise, wrapped as "Invalid CSV format". -/
def parse_csv_content (content : String) : Except String DataFrame :=
  let lines := (splitChar '\n' content).filter (fun l => !(l == ""))
  match lines with
  | [] => Except.error "Invalid CSV format: No columns to parse from file"
  | l0 :: _ =>
    let rawRows := lines.map (splitChar ',')
    let ncols := (splitChar ',' l0).length
    if rawRows.all (fun r => r.length == ncols) then
      let rows := rawRows.map (fun r =>
        (List.range ncols).map (fun i => cellToValue (colAllIntish rawRows i) (r.getD i "")))
      Except.ok ⟨inferColumns ncols rows, rows⟩
    else Except.error "Invalid CSV format: Error tokenizing data"

/-- Per-row body of validate_departments_data: skip rows whose department
cell is missing or blank after strip, otherwise emit the trimmed dict. -/
def deptRow (cols : List String) (r : List Value) : Option Record :=
  let v := getCell cols r "department"
  if isna v || strTrim (pyStr v) == "" then none
  else some [("department", Value.str (strTrim (pyStr v)))]

/-- Embedding of utils.validate_departments_data. -/
def validate_departments_data (df : DataFrame) : Except String (List Record) :=
  if !(df.columns.contains "department") then
    Except.error (missingMsg ["department"])
  else Except.ok (df.rows.filterMap (deptRow df.columns))

/-- Required columns of validate_jobs_data, depending on the input format. -/
def jobsRequired (cols : List String) : List String :=
  if cols.contains "id" && cols.contains "job" then ["id", "job"]
  else ["job", "department_id"]

/-- Per-row body of the validate_jobs_data loop.  A missing/blank job or a
missing department_id skips the row; a present department_id is passed to
int(), whose failure raises (Except.error), aborting the whole batch; when
the grid has no department_id column the constant 1 is assigned. -/
def jobsRowStep (cols : List String) (r : List Value) : Except String (Option Record) :=
  let jv := getCell cols r "job"
  if isna jv || strTrim (pyStr jv) == "" then Except.ok none
  else if cols.contains "department_id" then
    let dv := getCell cols r "department_id"
    if isna dv then Except.ok none
    else
      match pyInt dv with
      | some n => Except.ok (some [("job", Value.str (strTrim (pyStr jv))), ("department_id", Value.int n)])
      | none => Except.error (intCoerceMsg dv)
  else Except.ok (some [("job", Value.str (strTrim (pyStr jv))), ("department_id", Value.int 1)])

/-- Run a per-row step over all rows, accumulating emitted records in row
order; an uncaught per-row exception aborts the whole run. -/
def collectRows (f : List Value → Except String (Option Record)) :
    List (List Value) → Except String (List Record)
  | [] => Except.ok []
  | r :: rs =>
    match f r with
    | Except.error e => Except.error e
    | Except.ok o =>
      match collectRows f rs with
      | Except.error e => Except.error e
      | Except.ok rest =>
        Except.ok (match o with
          | some a => a :: rest
          | none => rest)

/-- Embedding of utils.validate_jobs_data. -/
def validate_jobs_data (df : DataFrame) : Except String (List Record) :=
  if !(missingOf (jobsRequired df.columns) df.columns == []) then
    Except.error (missingMsg (missingOf (jobsRequired df.columns) df.columns))
  else collectRows (jobsRowStep df.columns) df.rows

/-- Required columns of validate_employees_data, depending on the format. -/
def empRequired (cols : List String) : List String :=
  if cols.contains "id" then ["id", "name", "datetime", "department_id", "job_id"]
  else ["name", "datetime", "department_id", "job_id"]

/-- Modelled collaborator (pandas.to_datetime on a string): the claims do
not depend on the accepted timestamp grammar, so it is modelled as
accepting exactly the strings whose stripped form starts with a digit. -/
def pdToDatetime (s : String) : Option String :=
  match (strTrim s).data with
  | [] => none
  | c :: _ => if c.isDigit then some s else none

/-- The datetime coercion of the employees loop: strings go through
pd.to_datetime inside try/except, non-strings pass through unchanged. -/
def coerceDatetime (v : Value) : Option Value :=
  match v with
  | Value.str s => (pdToDatetime s).map Value.str
  | v => some v

/-- Per-row body of the validate_employees_data loop.  Missing/blank name,
missing datetime, missing id fields, or an unparseable datetime (caught by
try/except) skip the row; int() failure on either id raises, aborting the
batch. -/
def empRowStep (cols : List String) (r : List Value) : Except String (Option Record) :=
  let nv := getCell cols r "name"
  if isna nv || strTrim (pyStr nv) == "" then Except.ok none
  else
    let dtv := getCell cols r "datetime"
    if isna dtv then Except.ok none
    else
      let dev := getCell cols r "department_id"
      let jov := getCell cols r "job_id"
      if isna dev || isna jov then Except.ok none
      else
        match coerceDatetime dtv with
        | none => Except.ok none
        | some dt =>
          match pyInt dev with
          | none => Except.error (intCoerceMsg dev)
          | some d =>
            match pyInt jov with
            | none => Except.error (intCoerceMsg jov)
            | some j =>
              Except.ok (some [("name", Value.str (strTrim (pyStr nv))), ("datetime", dt),
                ("department_id", Value.int d), ("job_id", Value.int j)])

/-- Embedding of utils.validate_employees_data. -/
def validate_employees_data (df : DataFrame) : Except String (List Record) :=
  if !(missingOf (empRequired df.columns) df.columns == []) then
    Except.error (missingMsg (missingOf (empRequired df.columns) df.columns))
  else collectRows (empRowStep df.columns) df.rows

/-- Embedding of utils.get_table_validator. -/
def get_table_validator (table : String) :
    Except String (DataFrame → Except String (List Record)) :=
  if table == "departments" then Except.ok validate_departments_data
  else if table == "jobs" then Except.ok validate_jobs_data
  else if table == "employees" then Except.ok validate_employees_data
  else if table == "hired_employees" then Except.ok validate_employees_data
  else Except.error ("Unsupported table: " ++ table ++ ". Supported tables: " ++
    pyListRepr ["departments", "jobs", "employees", "hired_employees"])

/-- Key collection of pd.DataFrame(list-of-dicts): keys in order of first
appearance across the dicts. -/
def addKeys (acc : List String) (d : Record) : List String :=
  d.foldl (fun a kv => if a.contains kv.1 then a else a ++ [kv.1]) acc

/-- Columns of pd.DataFrame(list-of-dicts). -/
def dictColumns (data : List Record) : List String :=
  data.foldl addKeys []

/-- Model of pd.DataFrame(list-of-dicts): one row per dict, absent keys
become NaN. -/
def dictListToDf (data : List Record) : DataFrame :=
  let cols := dictColumns data
  ⟨cols, data.map (fun d => cols.map (fun k => (d.lookup k).getD Value.nan))⟩

/-- Embedding of utils.validate_batch_data: empty and oversize batches are
rejected before the table validator does any work. -/
def validate_batch_data (data : List Record) (table : String) :
    Except String (List Record) :=
  if data.isEmpty then Except.error "Empty data list"
  else if 1000 < data.length then Except.error "Batch size cannot exceed 1000 records"
  else
    let df := dictListToDf data
    match get_table_validator table with
    | Except.error e => Except.error e
    | Except.ok validator => validator df

/-- An HTTP outcome of the route handlers: 200 with message and count,
400 with a detail string, or the opaque 500. -/
inductive HttpResponse where
  | success : String → Nat → HttpResponse
  | clientError : String → HttpResponse
  | serverError : HttpResponse
deriving DecidableEq

/-- Outcome of a route handler's try-block body: a normal value, a raised
ValueError, or a raised HTTPException. -/
inductive PyResult (α : Type) where
  | ok : α → PyResult α
  | valueError : String → PyResult α
  | httpError : Nat → String → PyResult α

/-- The valid_tables list of routes.py. -/
def valid_tables : List String :=
  ["departments", "jobs", "employees", "hired_employees"]

/-- The except clauses of both route handlers: ValueError maps to a 400
response; every other exception - including an HTTPException raised inside
the try-block - is caught by the blanket `except Exception` and reported
as the opaque 500. -/
def handleExc (body : PyResult HttpResponse) : HttpResponse :=
  match body with
  | PyResult.ok r => r
  | PyResult.valueError m => HttpResponse.clientError m
  | PyResult.httpError _ _ => HttpResponse.serverError

/-- The try-block body of routes.upload_csv: parse, look up the validator,
validate, reject an empty validated result with HTTPException(400), else
report the bulk-insert count (the storage collaborator returns the length
of the validated list). -/
def upload_csv_body (table content : String) : PyResult HttpResponse :=
  match parse_csv_content content with
  | Except.error e => PyResult.valueError e
  | Except.ok df =>
    match get_table_validator table with
    | Except.error e => PyResult.valueError e
    | Except.ok validator =>
      match validator df with
      | Except.error e => PyResult.valueError e
      | Except.ok validated =>
        if validated.isEmpty then PyResult.httpError 400 "No valid data found in CSV"
        else
          let n := validated.length
          PyResult.ok (HttpResponse.success
            ("Successfully uploaded " ++ toString n ++ " records to " ++ table) n)

/-- Embedding of routes.upload_csv. -/
def upload_csv (table filename content : String) : HttpResponse :=
  if !(valid_tables.contains table) then
    HttpResponse.clientError ("Invalid table name. Must be one of: " ++ pyListRepr valid_tables)
  else if !(strEndsWith filename ".csv") then
    HttpResponse.clientError "File must be a CSV"
  else handleExc (upload_csv_body table content)

/-- The try-block body of routes.batch_insert. -/
def batch_insert_body (table : String) (data : List Record) : PyResult HttpResponse :=
  match validate_batch_data data table with
  | Except.error e => PyResult.valueError e
  | Except.ok validated =>
    if validated.isEmpty then PyResult.httpError 400 "No valid data provided"
    else
      let n := validated.length
      PyResult.ok (HttpResponse.success
        ("Successfully inserted " ++ toString n ++ " records into " ++ table) n)

/-- Embedding of routes.batch_insert. -/
def batch_insert (table : String) (data : List Record) : HttpResponse :=
  if !(valid_tables.contains table) then
    HttpResponse.clientError ("Invalid table name. Must be one of: " ++ pyListRepr valid_tables)
  else handleExc (batch_insert_body table data)

/-! ## Generic lemmas about the row-collection loop -/

/-- When the row loop succeeds, its output is exactly the row-order
filterMap of the per-row step over the input rows. -/
theorem collectRows_ok_eq (f : List Value → Except String (Option Record)) :
    ∀ rows out, collectRows f rows = Except.ok out →
      out = rows.filterMap (fun r => ((f r).toOption).join) := by
  intro rows
  induction rows with
  | nil =>
    intro out h
    simp only [collectRows, Except.ok.injEq] at h
    simp [← h]
  | cons r rs ih =>
    intro out h
    simp only [collectRows] at h
    cases hf : f r with
    | error e => rw [hf] at h; exact absurd h (by simp)
    | ok o =>
      rw [hf] at h
      cases hc : collectRows f rs with
      | error e => rw [hc] at h; exact absurd h (by simp)
      | ok rest =>
        rw [hc] at h
        simp only [Except.ok.injEq] at h
        subst h
        rw [List.filterMap_cons]
        cases o with
        | none => simp [hf, ih rest hc, Except.toOption, Option.join]
        | some a => simp [hf, ih rest hc, Except.toOption, Option.join]

/-- A row on which the step emits nothing is simply dropped: the loop's
result is the same as on the input without that row. -/
theorem collectRows_skip (f : List Value → Except String (Option Record))
    (r : List Value) (hr : f r = Except.ok none) :
    ∀ pre post, collectRows f (pre ++ r :: post) = collectRows f (pre ++ post) := by
  intro pre
  induction pre with
  | nil =>
    intro post
    simp only [List.nil_append, collectRows, hr]
    cases hc : collectRows f post <;> simp
  | cons x xs ih =>
    intro post
    simp only [List.cons_append, collectRows, List.append_eq, ih]

/-- If every row's step succeeds, the loop succeeds. -/
theorem collectRows_total (f : List Value → Except String (Option Record)) :
    ∀ rows, (∀ r ∈ rows, ∃ o, f r = Except.ok o) →
      ∃ out, collectRows f rows = Except.ok out := by
  intro rows
  induction rows with
  | nil => intro _; exact ⟨[], rfl⟩
  | cons r rs ih =>
    intro h
    obtain ⟨o, ho⟩ := h r (by simp)
    obtain ⟨rest, hrest⟩ := ih (fun x hx => h x (by simp [hx]))
    cases o with
    | none => exact ⟨rest, by simp [collectRows, ho, hrest]⟩
    | some a => exact ⟨a :: rest, by simp [collectRows, ho, hrest]⟩

/-- A raising row aborts the whole loop (when the rows before it all
succeed): the loop reports that row's exception. -/
theorem collectRows_error_head (f : List Value → Except String (Option Record))
    (r : List Value) (e : String) (hr : f r = Except.error e) :
    ∀ pre post, (∀ x ∈ pre, ∃ o, f x = Except.ok o) →
      collectRows f (pre ++ r :: post) = Except.error e := by
  intro pre
  induction pre with
  | nil => intro post _; simp [collectRows, hr]
  | cons x xs ih =>
    intro post h
    obtain ⟨o, ho⟩ := h x (by simp)
    simp [collectRows, ho, ih post (fun y hy => h y (by simp [hy]))]

/-- A successful filterMap element of the loop comes from a step returning
that record. -/
theorem stepOfJoin (f : List Value → Except String (Option Record))
    (r : List Value) (rec : Record)
    (h : ((f r).toOption).join = some rec) : f r = Except.ok (some rec) := by
  cases hq : f r with
  | error e => rw [hq] at h; simp [Except.toOption] at h
  | ok o =>
    rw [hq] at h
    cases o with
    | none => simp [Except.toOption] at h
    | some a =>
      simp [Except.toOption] at h
      subst h
      rfl

/-! ## Success-shape lemmas for the three validators -/

/-- On success the departments validator returns the filterMap of its
per-row body. -/
theorem validate_departments_ok (df : DataFrame) (out : List Record)
    (h : validate_departments_data df = Except.ok out) :
    out = df.rows.filterMap (deptRow df.columns) := by
  unfold validate_departments_data at h
  split at h
  · exact absurd h (by simp)
  · simp only [Except.ok.injEq] at h
    exact h.symm

/-- On success the jobs validator returns the filterMap of its per-row
step. -/
theorem validate_jobs_ok (df : DataFrame) (out : List Record)
    (h : validate_jobs_data df = Except.ok out) :
    out = df.rows.filterMap (fun r => ((jobsRowStep df.columns r).toOption).join) := by
  unfold validate_jobs_data at h
  split at h
  · exact absurd h (by simp)
  · exact collectRows_ok_eq _ _ _ h

/-- On success the employees validator returns the filterMap of its
per-row step. -/
theorem validate_employees_ok (df : DataFrame) (out : List Record)
    (h : validate_employees_data df = Except.ok out) :
    out = df.rows.filterMap (fun r => ((empRowStep df.columns r).toOption).join) := by
  unfold validate_employees_data at h
  split at h
  · exact absurd h (by simp)
  · exact collectRows_ok_eq _ _ _ h

/-! ## Per-row shape lemmas -/

/-- Any record emitted by the departments per-row body carries a trimmed,
non-blank department name. -/
theorem deptRow_some (cols : List String) (r : List Value) (rec : Record)
    (h : deptRow cols r = some rec) :
    ∃ s, rec.lookup "department" = some (Value.str (strTrim s)) ∧ ¬(strTrim s = "") := by
  simp only [deptRow] at h
  split at h
  · exact absurd h (by simp)
  · rename_i hc
    simp only [Option.some.injEq] at h
    refine ⟨pyStr (getCell cols r "department"), ?_, ?_⟩
    · rw [← h]
      simp [List.lookup]
    · intro he
      exact hc (by simp [he])

/-- A blank-after-trim department cell is dropped by the per-row body. -/
theorem deptRow_blank (cols : List String) (r : List Value)
    (h : strTrim (pyStr (getCell cols r "department")) = "") :
    deptRow cols r = none := by
  simp [deptRow, h]

/-- Any record emitted by the jobs per-row step carries a trimmed,
non-blank job name. -/
theorem jobsRowStep_some (cols : List String) (r : List Value) (rec : Record)
    (h : jobsRowStep cols r = Except.ok (some rec)) :
    ∃ s, rec.lookup "job" = some (Value.str (strTrim s)) ∧ ¬(strTrim s = "") := by
  simp only [jobsRowStep] at h
  split at h
  · exact absurd h (by simp)
  · rename_i hc
    refine ⟨pyStr (getCell cols r "job"), ?_, fun he => hc (by simp [he])⟩
    split at h
    · split at h
      · exact absurd h (by simp)
      · cases hd : pyInt (getCell cols r "department_id") with
        | some n =>
          rw [hd] at h
          simp only [Except.ok.injEq, Option.some.injEq] at h
          rw [← h]
          simp [List.lookup]
        | none => rw [hd] at h; exact absurd h (by simp)
    · simp only [Except.ok.injEq, Option.some.injEq] at h
      rw [← h]
      simp [List.lookup]

/-- A blank-after-trim job cell is dropped by the per-row step. -/
theorem jobsRowStep_blank (cols : List String) (r : List Value)
    (h : strTrim (pyStr (getCell cols r "job")) = "") :
    jobsRowStep cols r = Except.ok none := by
  simp [jobsRowStep, h]

/-- Any record emitted by the employees per-row step carries a trimmed,
non-blank employee name. -/
theorem empRowStep_some (cols : List String) (r : List Value) (rec : Record)
    (h : empRowStep cols r = Except.ok (some rec)) :
    ∃ s, rec.lookup "name" = some (Value.str (strTrim s)) ∧ ¬(strTrim s = "") := by
  simp only [empRowStep] at h
  split at h
  · exact absurd h (by simp)
  · rename_i hc
    refine ⟨pyStr (getCell cols r "name"), ?_, fun he => hc (by simp [he])⟩
    split at h
    · exact absurd h (by simp)
    · split at h
      · exact absurd h (by simp)
      · cases hdt : coerceDatetime (getCell cols r "datetime") with
        | none => rw [hdt] at h; exact absurd h (by simp)
        | some dt =>
          rw [hdt] at h
          cases hd : pyInt (getCell cols r "department_id") with
          | none => rw [hd] at h; exact absurd h (by simp)
          | some d =>
            rw [hd] at h
            cases hj : pyInt (getCell cols r "job_id") with
            | none => rw [hj] at h; exact absurd h (by simp)
            | some j =>
              rw [hj] at h
              simp only [Except.ok.injEq, Option.some.injEq] at h
              rw [← h]
              simp [List.lookup]

/-- A blank-after-trim name cell is dropped by the employees per-row step. -/
theorem empRowStep_blank (cols : List String) (r : List Value)
    (h : strTrim (pyStr (getCell cols r "name")) = "") :
    empRowStep cols r = Except.ok none := by
  simp [empRowStep, h]

/-- Without a department_id column the jobs per-row step never raises. -/
theorem jobsRowStep_no_dept_ok (cols : List String) (r : List Value)
    (h3 : cols.contains "department_id" = false) :
    ∃ o, jobsRowStep cols r = Except.ok o := by
  simp only [jobsRowStep, h3]
  split
  · exact ⟨none, rfl⟩
  · exact ⟨_, rfl⟩

/-- Without a department_id column every record the jobs per-row step
emits carries the constant department_id 1. -/
theorem jobsRowStep_no_dept_rec (cols : List String) (r : List Value) (rec : Record)
    (h3 : cols.contains "department_id" = false)
    (h : jobsRowStep cols r = Except.ok (some rec)) :
    rec.lookup "department_id" = some (Value.int 1) := by
  simp only [jobsRowStep, h3] at h
  split at h
  · exact absurd h (by simp)
  · simp only [Bool.false_eq_true, if_false, Except.ok.injEq, Option.some.injEq] at h
    rw [← h]
    simp [List.lookup]

/-! ## Concrete inputs used by the claim theorems -/

/-- The CSV bytes of the header-row scenario (the repository's own
test_upload_csv_jobs fixture). -/
def c3csv : String := "name,department_id\nSoftware Engineer,1\nMarketing Manager,2"

/-- The grid the parser actually produces for `c3csv`: the header row is
kept as a data row and the two columns are relabelled positionally. -/
def c3df : DataFrame :=
  ⟨["id", "name"],
   [[Value.str "name", Value.str "department_id"],
    [Value.str "Software Engineer", Value.str "1"],
    [Value.str "Marketing Manager", Value.str "2"]]⟩

/-- A jobs grid whose middle row has a non-numeric department_id. -/
def c1df : DataFrame :=
  ⟨["job", "department_id"],
   [[Value.str "A", Value.int 1],
    [Value.str "B", Value.str "x"],
    [Value.str "C", Value.int 3]]⟩

/-- A header-less two-column jobs CSV (the id,job format the parser
sniffs) with no department_id column. -/
def c5csv : String := "1,Manager\n2,VP Sales"

/-- A department name of 101 characters. -/
def longName : String := String.mk (List.replicate 101 'a')

/-- C3 (code_bug evaluation): on the CSV bytes
"name,department_id\nSoftware Engineer,1\nMarketing Manager,2" the parser
does NOT honor the header row: it keeps the header as a data row and
relabels the two columns positionally as id,name (the content sniff
matches nothing), after which the jobs validator rejects the batch with
missing columns ['job', 'department_id'].  The claim (and the
repository's own test_upload_csv_jobs) expect two JobRecords instead. -/
theorem C3_header_csv_rejected :
    parse_csv_content c3csv = Except.ok c3df ∧
    validate_jobs_data c3df =
      Except.error "Missing required columns: [\x27job\x27, \x27department_id\x27]" ∧
    upload_csv "jobs" "jobs.csv" c3csv =
      HttpResponse.clientError "Missing required columns: [\x27job\x27, \x27department_id\x27]" :=
  ⟨rfl, rfl, rfl⟩

/-- C4 (code_bug evaluation): the direct JSON batch
[{"name":"Engineering"}, {"name":"Marketing"}] against table departments
is rejected whole with "Missing required columns: ['department']" -- the
departments validator requires the key `department`, not `name` -- while
the claim (and the repository's own test_batch_insert_departments) expect
two records. -/
theorem C4_json_departments_rejected :
    validate_batch_data
      [[("name", Value.str "Engineering")], [("name", Value.str "Marketing")]]
      "departments" =
      Except.error "Missing required columns: [\x27department\x27]" ∧
    batch_insert "departments"
      [[("name", Value.str "Engineering")], [("name", Value.str "Marketing")]] =
      HttpResponse.clientError "Missing required columns: [\x27department\x27]" :=
  ⟨rfl, rfl⟩

/-- C7 (code_bug evaluation): a structurally valid, non-empty batch in
which every row fails row-level coercion does raise
HTTPException(400, "No valid data ...") inside the try-block, but the
blanket `except Exception` clause of both route handlers catches that
HTTPException and re-raises it as the opaque 500 server error, so the
caller sees a server error, not the client error the claim states. -/
theorem C7_empty_result_is_server_error :
    batch_insert_body "departments" [[("department", Value.str " ")]] =
      PyResult.httpError 400 "No valid data provided" ∧
    batch_insert "departments" [[("department", Value.str " ")]] =
      HttpResponse.serverError ∧
    upload_csv "employees" "e.csv" "1,,2023-01-15,1,1" = HttpResponse.serverError :=
  ⟨rfl, rfl, rfl⟩

/-- C1 counterexample: in the jobs grid `c1df` every required column is
present and only the middle row's department_id ("x") fails integer
coercion, yet the whole batch validation aborts with the int() ValueError
instead of dropping that row and returning the records of rows A and C. -/
theorem C1_counterexample :
    validate_jobs_data c1df =
      Except.error "invalid literal for int() with base 10: \x27x\x27" ∧
    ∀ out, ¬(validate_jobs_data c1df = Except.ok out) := by
  refine ⟨rfl, fun out h => ?_⟩
  rw [show validate_jobs_data c1df =
      Except.error "invalid literal for int() with base 10: \x27x\x27" from rfl] at h
  exact Except.noConfusion h

/-- C2 counterexample: the batch-size guard is not applied identically to
the two input paths.  A zero-record direct JSON batch fails with the
guard's "Empty data list", but a zero-record CSV upload never reaches any
size guard: it fails CSV parsing with "Invalid CSV format: ..." -- a
different error from a different component. -/
theorem C2_counterexample :
    upload_csv "departments" "data.csv" "" =
      HttpResponse.clientError "Invalid CSV format: No columns to parse from file" ∧
    batch_insert "departments" [] = HttpResponse.clientError "Empty data list" ∧
    ¬(("Invalid CSV format: No columns to parse from file" : String) = "Empty data list") :=
  ⟨rfl, rfl, by decide⟩

/-- C5 counterexample: a well-formed jobs CSV missing the department_id
column does not fail with a SchemaError naming department_id.  The
header-less id,job format (which the parser sniffs from sample content)
validates successfully, assigning the default department_id 1. -/
theorem C5_counterexample :
    (parse_csv_content c5csv).bind validate_jobs_data =
      Except.ok [[("job", Value.str "Manager"), ("department_id", Value.int 1)],
                 [("job", Value.str "VP Sales"), ("department_id", Value.int 1)]] :=
  rfl

/-- C9 counterexample: a department name of 101 characters passes
validation unchanged -- the validators enforce no 100-character upper
bound on name fields. -/
theorem C9_counterexample :
    validate_departments_data ⟨["department"], [[Value.str longName]]⟩ =
      Except.ok [[("department", Value.str longName)]] ∧
    100 < longName.length :=
  ⟨rfl, by decide⟩

/-! ## Claim theorems -/

/-- C8: for every input batch on which validation succeeds, the validated
output is the row-order filterMap of a per-row function over the input
rows: every output record comes from a distinct input row, records are
never duplicated or fabricated, surviving records keep the original row
order, and the output count is at most the input row count. -/
theorem C8_output_subsequence_of_rows :
    (∀ df out, validate_departments_data df = Except.ok out →
      out = df.rows.filterMap (deptRow df.columns) ∧ out.length ≤ df.rows.length) ∧
    (∀ df out, validate_jobs_data df = Except.ok out →
      out = df.rows.filterMap (fun r => ((jobsRowStep df.columns r).toOption).join) ∧
        out.length ≤ df.rows.length) ∧
    (∀ df out, validate_employees_data df = Except.ok out →
      out = df.rows.filterMap (fun r => ((empRowStep df.columns r).toOption).join) ∧
        out.length ≤ df.rows.length) := by
  refine ⟨fun df out h => ?_, fun df out h => ?_, fun df out h => ?_⟩
  · have e := validate_departments_ok df out h
    exact ⟨e, e ▸ List.length_filterMap_le _ _⟩
  · have e := validate_jobs_ok df out h
    exact ⟨e, e ▸ List.length_filterMap_le _ _⟩
  · have e := validate_employees_ok df out h
    exact ⟨e, e ▸ List.length_filterMap_le _ _⟩

/-- Witness for C8 at a concrete departments batch: two rows, one blank,
give the one-record output predicted by the filterMap characterization. -/
theorem C8_witness :
    ([[("department", Value.str "A")]] : List Record) =
      (DataFrame.mk ["department"] [[Value.str " A "], [Value.nan]]).rows.filterMap
        (deptRow (DataFrame.mk ["department"] [[Value.str " A "], [Value.nan]]).columns) ∧
    ([[("department", Value.str "A")]] : List Record).length ≤
      (DataFrame.mk ["department"] [[Value.str " A "], [Value.nan]]).rows.length :=
  C8_output_subsequence_of_rows.1
    (DataFrame.mk ["department"] [[Value.str " A "], [Value.nan]])
    [[("department", Value.str "A")]] rfl

/-- C9 (amended): every name string field of a record in the validated
output is the trim of a raw cell and is non-blank after trimming, and a
row whose mandatory name field is blank after trimming is dropped by the
per-row body rather than failing the batch.  (The claim's 100-character
upper bound is NOT enforced; see the counterexample.) -/
theorem C9_amended :
    (∀ df out rec, validate_departments_data df = Except.ok out → rec ∈ out →
      ∃ s, rec.lookup "department" = some (Value.str (strTrim s)) ∧ ¬(strTrim s = "")) ∧
    (∀ df out rec, validate_jobs_data df = Except.ok out → rec ∈ out →
      ∃ s, rec.lookup "job" = some (Value.str (strTrim s)) ∧ ¬(strTrim s = "")) ∧
    (∀ df out rec, validate_employees_data df = Except.ok out → rec ∈ out →
      ∃ s, rec.lookup "name" = some (Value.str (strTrim s)) ∧ ¬(strTrim s = "")) ∧
    (∀ cols r, strTrim (pyStr (getCell cols r "department")) = "" → deptRow cols r = none) ∧
    (∀ cols r, strTrim (pyStr (getCell cols r "job")) = "" →
      jobsRowStep cols r = Except.ok none) ∧
    (∀ cols r, strTrim (pyStr (getCell cols r "name")) = "" →
      empRowStep cols r = Except.ok none) := by
  refine ⟨fun df out rec h hm => ?_, fun df out rec h hm => ?_, fun df out rec h hm => ?_,
    deptRow_blank, jobsRowStep_blank, empRowStep_blank⟩
  · rw [validate_departments_ok df out h] at hm
    obtain ⟨r, _, hsome⟩ := List.mem_filterMap.mp hm
    exact deptRow_some _ _ _ hsome
  · rw [validate_jobs_ok df out h] at hm
    obtain ⟨r, _, hsome⟩ := List.mem_filterMap.mp hm
    exact jobsRowStep_some _ _ _ (stepOfJoin _ _ _ hsome)
  · rw [validate_employees_ok df out h] at hm
    obtain ⟨r, _, hsome⟩ := List.mem_filterMap.mp hm
    exact empRowStep_some _ _ _ (stepOfJoin _ _ _ hsome)

/-- Witness for C9 at a concrete input: the record produced from " A "
carries a trimmed, non-blank department name. -/
theorem C9_witness :
    ∃ s, ([("department", Value.str "A")] : Record).lookup "department" =
      some (Value.str (strTrim s)) ∧ ¬(strTrim s = "") :=
  C9_amended.1 (DataFrame.mk ["department"] [[Value.str " A "]])
    [[("department", Value.str "A")]] [("department", Value.str "A")] rfl (by simp)

/-- C10: a jobs grid with an id column and a job column but no
department_id column is not rejected for the missing department_id --
validation succeeds and every output record carries the constant
department_id 1 regardless of the input content. -/
theorem C10_jobs_default_department (df : DataFrame)
    (h1 : df.columns.contains "id" = true)
    (h2 : df.columns.contains "job" = true)
    (h3 : df.columns.contains "department_id" = false) :
    ∃ out, validate_jobs_data df = Except.ok out ∧
      ∀ rec ∈ out, rec.lookup "department_id" = some (Value.int 1) := by
  have hid : "id" ∈ df.columns := by simpa using h1
  have hjob : "job" ∈ df.columns := by simpa using h2
  have hmiss : missingOf (jobsRequired df.columns) df.columns = [] := by
    simp [jobsRequired, missingOf, hid, hjob]
  obtain ⟨out, hout⟩ := collectRows_total (jobsRowStep df.columns) df.rows
    (fun r _ => jobsRowStep_no_dept_ok df.columns r h3)
  refine ⟨out, ?_, ?_⟩
  · simp only [validate_jobs_data, hmiss]
    simpa using hout
  · intro rec hm
    rw [collectRows_ok_eq _ _ _ hout] at hm
    obtain ⟨r, _, hsome⟩ := List.mem_filterMap.mp hm
    exact jobsRowStep_no_dept_rec df.columns r rec h3 (stepOfJoin _ _ _ hsome)

/-- Witness for C10 at a concrete id,job grid. -/
theorem C10_witness :
    ∃ out, validate_jobs_data (DataFrame.mk ["id", "job"] [[Value.int 7, Value.str "Manager"]]) =
      Except.ok out ∧ ∀ rec ∈ out, rec.lookup "department_id" = some (Value.int 1) :=
  C10_jobs_default_department
    (DataFrame.mk ["id", "job"] [[Value.int 7, Value.str "Manager"]]) rfl rfl rfl

/-- C6: the ingestion orchestrator accepts exactly the four logical table
names -- code-level identifiers departments, jobs, employees and the
alias hired_employees (the spec's department, job, employee,
hired_employee) -- with hired_employees dispatching to the very same
validator function as employees; every other table name (e.g.
"unknown_table") fails with the Unsupported-table error regardless of the
payload. -/
theorem C6_recognized_tables :
    (∀ t, ¬(t ∈ valid_tables) → get_table_validator t =
      Except.error ("Unsupported table: " ++ t ++ ". Supported tables: " ++
        pyListRepr ["departments", "jobs", "employees", "hired_employees"])) ∧
    get_table_validator "departments" = Except.ok validate_departments_data ∧
    get_table_validator "jobs" = Except.ok validate_jobs_data ∧
    get_table_validator "employees" = Except.ok validate_employees_data ∧
    get_table_validator "hired_employees" = Except.ok validate_employees_data ∧
    get_table_validator "unknown_table" =
      Except.error ("Unsupported table: unknown_table. Supported tables: [\x27departments\x27, \x27jobs\x27, \x27employees\x27, \x27hired_employees\x27]") := by
  refine ⟨?_, rfl, rfl, rfl, rfl, rfl⟩
  intro t ht
  simp only [valid_tables, List.mem_cons, List.not_mem_nil, or_false, not_or] at ht
  obtain ⟨h1, h2, h3, h4⟩ := ht
  simp [get_table_validator, h1, h2, h3, h4]

/-- Witness for C6: an unrecognized name is rejected with the
Unsupported-table error. -/
theorem C6_witness :
    get_table_validator "not_a_table" =
      Except.error ("Unsupported table: " ++ "not_a_table" ++ ". Supported tables: " ++
        pyListRepr ["departments", "jobs", "employees", "hired_employees"]) :=
  C6_recognized_tables.1 "not_a_table" (by decide)

/-- C5 (amended): when a column of the code's (format-dependent) required
set is absent from the parsed input, validation fails for the whole batch
with a ValueError naming exactly the missing columns and zero records are
processed; in particular a jobs grid with a job column but neither id nor
department_id fails with missing ['department_id'].  (Through the CSV
parser that shape is unreachable: see the counterexample, where a jobs
CSV missing department_id validates successfully instead.) -/
theorem C5_amended :
    (∀ df, ¬(missingOf (jobsRequired df.columns) df.columns = []) →
      validate_jobs_data df =
        Except.error (missingMsg (missingOf (jobsRequired df.columns) df.columns))) ∧
    (∀ df, df.columns.contains "job" = true → df.columns.contains "id" = false →
      df.columns.contains "department_id" = false →
      validate_jobs_data df =
        Except.error "Missing required columns: [\x27department_id\x27]") ∧
    (∀ df, df.columns.contains "department" = false →
      validate_departments_data df =
        Except.error "Missing required columns: [\x27department\x27]") ∧
    (∀ df, ¬(missingOf (empRequired df.columns) df.columns = []) →
      validate_employees_data df =
        Except.error (missingMsg (missingOf (empRequired df.columns) df.columns))) := by
  refine ⟨fun df h => ?_, fun df h1 h2 h3 => ?_, fun df h => ?_, fun df h => ?_⟩
  · simp [validate_jobs_data, h]
  · have hjob : "job" ∈ df.columns := by simpa using h1
    have hid : ¬("id" ∈ df.columns) := by simpa using h2
    have hdep : ¬("department_id" ∈ df.columns) := by simpa using h3
    have hreq : jobsRequired df.columns = ["job", "department_id"] := by
      simp [jobsRequired, hid]
    have hmiss : missingOf (jobsRequired df.columns) df.columns = ["department_id"] := by
      rw [hreq]
      simp [missingOf, hjob, hdep]
    unfold validate_jobs_data
    rw [hmiss]
    rfl
  · unfold validate_departments_data
    rw [h]
    rfl
  · simp [validate_employees_data, h]

/-- Witness for C5: a grid with only a job column is rejected naming
exactly the missing department_id. -/
theorem C5_amended_witness :
    validate_jobs_data (DataFrame.mk ["job"] []) =
      Except.error "Missing required columns: [\x27department_id\x27]" :=
  C5_amended.2.1 (DataFrame.mk ["job"] []) rfl rfl rfl

/-- C1 (amended): in both the jobs and the employees validator, a row
whose integer ID cell (department_id or job_id) is missing (NaN) yields
`ok none` -- the row is dropped, and dropping is local (the loop on the
surrounding rows is unchanged); but a row whose ID cell is a string that
fails integer coercion raises the int() ValueError, and such a raise
aborts the entire batch when the preceding rows were fine. -/
theorem C1_amended :
    (∀ cols pre post r, jobsRowStep cols r = Except.ok none →
      collectRows (jobsRowStep cols) (pre ++ r :: post) =
        collectRows (jobsRowStep cols) (pre ++ post)) ∧
    (∀ cols r, cols.contains "department_id" = true →
      (isna (getCell cols r "job") || strTrim (pyStr (getCell cols r "job")) == "") = false →
      getCell cols r "department_id" = Value.nan →
      jobsRowStep cols r = Except.ok none) ∧
    (∀ cols r s, cols.contains "department_id" = true →
      (isna (getCell cols r "job") || strTrim (pyStr (getCell cols r "job")) == "") = false →
      getCell cols r "department_id" = Value.str s → parseIntLit s = none →
      jobsRowStep cols r =
        Except.error ("invalid literal for int() with base 10: \x27" ++ s ++ "\x27")) ∧
    (∀ cols pre post r e, jobsRowStep cols r = Except.error e →
      (∀ x ∈ pre, ∃ o, jobsRowStep cols x = Except.ok o) →
      collectRows (jobsRowStep cols) (pre ++ r :: post) = Except.error e) ∧
    (∀ cols pre post r, empRowStep cols r = Except.ok none →
      collectRows (empRowStep cols) (pre ++ r :: post) =
        collectRows (empRowStep cols) (pre ++ post)) ∧
    (∀ cols r,
      (isna (getCell cols r "name") || strTrim (pyStr (getCell cols r "name")) == "") = false →
      isna (getCell cols r "datetime") = false →
      (isna (getCell cols r "department_id") || isna (getCell cols r "job_id")) = true →
      empRowStep cols r = Except.ok none) ∧
    (∀ cols r s dt,
      (isna (getCell cols r "name") || strTrim (pyStr (getCell cols r "name")) == "") = false →
      isna (getCell cols r "datetime") = false →
      (isna (getCell cols r "department_id") || isna (getCell cols r "job_id")) = false →
      coerceDatetime (getCell cols r "datetime") = some dt →
      getCell cols r "department_id" = Value.str s → parseIntLit s = none →
      empRowStep cols r =
        Except.error ("invalid literal for int() with base 10: \x27" ++ s ++ "\x27")) ∧
    (∀ cols r s dt d,
      (isna (getCell cols r "name") || strTrim (pyStr (getCell cols r "name")) == "") = false →
      isna (getCell cols r "datetime") = false →
      (isna (getCell cols r "department_id") || isna (getCell cols r "job_id")) = false →
      coerceDatetime (getCell cols r "datetime") = some dt →
      pyInt (getCell cols r "department_id") = some d →
      getCell cols r "job_id" = Value.str s → parseIntLit s = none →
      empRowStep cols r =
        Except.error ("invalid literal for int() with base 10: \x27" ++ s ++ "\x27")) ∧
    (∀ cols pre post r e, empRowStep cols r = Except.error e →
      (∀ x ∈ pre, ∃ o, empRowStep cols x = Except.ok o) →
      collectRows (empRowStep cols) (pre ++ r :: post) = Except.error e) := by
  refine ⟨fun cols pre post r h => collectRows_skip _ r h pre post,
    fun cols r h1 h2 h3 => ?_, fun cols r s h1 h2 h3 h4 => ?_,
    fun cols pre post r e h hp => collectRows_error_head _ r e h pre post hp,
    fun cols pre post r h => collectRows_skip _ r h pre post,
    fun cols r hn hdt hij => ?_, fun cols r s dt hn hdt hij hcd hdev h4 => ?_,
    fun cols r s dt d hn hdt hij hcd hpd hjov h4 => ?_,
    fun cols pre post r e h hp => collectRows_error_head _ r e h pre post hp⟩
  · simp only [jobsRowStep]
    rw [h2, h1, h3]
    simp [isna]
  · simp only [jobsRowStep]
    rw [h2, h1, h3]
    simp [isna, pyInt, h4, intCoerceMsg, pyStr]
  · simp only [empRowStep]
    rw [hn, hdt, hij]
    simp
  · simp only [empRowStep]
    rw [hn, hdt, hij, hcd, hdev]
    simp [isna, pyInt, h4, intCoerceMsg, pyStr]
  · simp only [empRowStep]
    rw [hn, hdt, hij, hcd, hpd, hjov]
    simp [isna, pyInt, h4, intCoerceMsg, pyStr]

/-- Witness for C1 at concrete jobs and employees grids: the
NaN-department_id rows are dropped locally with the loop over the
surrounding rows unchanged, and a non-numeric string ID raises. -/
theorem C1_amended_witness :
    jobsRowStep ["job", "department_id"] [Value.str "B", Value.nan] = Except.ok none ∧
    collectRows (jobsRowStep ["job", "department_id"])
        ([[Value.str "A", Value.int 1]] ++ [Value.str "B", Value.nan] ::
          [[Value.str "C", Value.int 3]]) =
      collectRows (jobsRowStep ["job", "department_id"])
        ([[Value.str "A", Value.int 1]] ++ [[Value.str "C", Value.int 3]]) ∧
    empRowStep ["name", "datetime", "department_id", "job_id"]
        [Value.str "John", Value.str "2023-01-15", Value.nan, Value.int 1] = Except.ok none ∧
    empRowStep ["name", "datetime", "department_id", "job_id"]
        [Value.str "John", Value.str "2023-01-15", Value.str "x", Value.int 1] =
      Except.error ("invalid literal for int() with base 10: \x27" ++ "x" ++ "\x27") :=
  ⟨C1_amended.2.1 ["job", "department_id"] [Value.str "B", Value.nan] rfl rfl rfl,
   C1_amended.1 ["job", "department_id"] [[Value.str "A", Value.int 1]]
     [[Value.str "C", Value.int 3]] [Value.str "B", Value.nan]
     (C1_amended.2.1 ["job", "department_id"] [Value.str "B", Value.nan] rfl rfl rfl),
   C1_amended.2.2.2.2.2.1 ["name", "datetime", "department_id", "job_id"]
     [Value.str "John", Value.str "2023-01-15", Value.nan, Value.int 1] rfl rfl rfl,
   C1_amended.2.2.2.2.2.2.1 ["name", "datetime", "department_id", "job_id"]
     [Value.str "John", Value.str "2023-01-15", Value.str "x", Value.int 1] "x"
     (Value.str "2023-01-15") rfl rfl rfl rfl rfl rfl⟩

/-! ## Lemmas for the CSV upload path on replicated inputs -/

/-- Splitting a separator-free character list yields one field. -/
theorem splitCharAux_no_sep (sep : Char) :
    ∀ cs acc, cs.all (fun c => !(c == sep)) = true →
      splitCharAux sep cs acc = [String.mk (acc.reverse ++ cs)] := by
  intro cs
  induction cs with
  | nil => intro acc _; simp [splitCharAux]
  | cons c cs ih =>
    intro acc h
    simp only [List.all_cons, Bool.and_eq_true] at h
    obtain ⟨hc, hcs⟩ := h
    have hc' : (c == sep) = false := by simpa using hc
    simp only [splitCharAux, hc', Bool.false_eq_true, if_false]
    rw [ih (c :: acc) hcs]
    simp

/-- Splitting at the first separator after a separator-free stretch
emits that stretch as a field and continues on the rest. -/
theorem splitCharAux_sep_split (sep : Char) :
    ∀ cs rest acc, cs.all (fun c => !(c == sep)) = true →
      splitCharAux sep (cs ++ sep :: rest) acc =
        String.mk (acc.reverse ++ cs) :: splitCharAux sep rest [] := by
  intro cs
  induction cs with
  | nil =>
    intro rest acc _
    simp [splitCharAux]
  | cons c cs ih =>
    intro rest acc h
    simp only [List.all_cons, Bool.and_eq_true] at h
    obtain ⟨hc, hcs⟩ := h
    have hc' : (c == sep) = false := by simpa using hc
    simp only [List.cons_append, splitCharAux, List.append_eq, hc', Bool.false_eq_true, if_false]
    rw [ih rest (c :: acc) hcs]
    simp

/-- Splitting the newline-join of n+1 copies of a newline-free line
recovers the n+1 lines. -/
theorem splitChar_joinStrs_replicate (l : String)
    (hl : l.data.all (fun c => !(c == '\n')) = true) :
    ∀ n, splitChar '\n' (joinStrs "\n" (List.replicate (n+1) l)) = List.replicate (n+1) l := by
  intro n
  induction n with
  | zero =>
    show splitChar '\n' (joinStrs "\n" [l]) = [l]
    show splitChar '\n' l = [l]
    unfold splitChar
    rw [splitCharAux_no_sep '\n' l.data [] hl]
    simp
  | succ n ih =>
    show splitChar '\n' (joinStrs "\n" (l :: l :: List.replicate n l)) = _
    have hjoin : joinStrs "\n" (l :: l :: List.replicate n l) =
        l ++ "\n" ++ joinStrs "\n" (l :: List.replicate n l) := rfl
    rw [hjoin]
    unfold splitChar
    have hdata : (l ++ "\n" ++ joinStrs "\n" (l :: List.replicate n l)).data =
        l.data ++ '\n' :: (joinStrs "\n" (l :: List.replicate n l)).data := by
      show (l.data ++ ['\n']) ++ _ = _
      simp
    rw [hdata, splitCharAux_sep_split '\n' l.data _ [] hl]
    have ih' : splitCharAux '\n' (joinStrs "\n" (l :: List.replicate n l)).data [] =
        l :: List.replicate n l := by
      have := ih
      rw [List.replicate_succ] at this
      exact this
    rw [ih']
    simp [List.replicate_succ]

/-- Filtering a replicated list by a predicate its element satisfies is
the identity. -/
theorem filter_replicate_pos (p : String → Bool) (a : String) (h : p a = true) :
    ∀ n, (List.replicate n a).filter p = List.replicate n a := by
  intro n
  induction n with
  | zero => rfl
  | succ n ih => simp [List.replicate_succ, List.filter_cons, h, ih]

/-- `all` over a replicated list of a satisfying element is true. -/
theorem all_replicate_pos {α : Type} (p : α → Bool) (a : α) (h : p a = true) :
    ∀ n, (List.replicate n a).all p = true := by
  intro n
  induction n with
  | zero => rfl
  | succ n ih => simp [List.replicate_succ, List.all_cons, h, ih]

/-- `all` over a nonempty replicated list equals the check on its
element. -/
theorem all_cons_replicate {α : Type} (p : α → Bool) (a : α) (n : Nat) :
    (a :: List.replicate n a).all p = p a := by
  cases hp : p a
  · simp [List.all_cons, hp]
  · simp [List.all_cons, hp, all_replicate_pos p a hp n]

/-- filterMap over a replicated list whose element maps to some value. -/
theorem filterMap_replicate_some {α β : Type} (f : α → Option β) (a : α) (b : β)
    (h : f a = some b) :
    ∀ n, (List.replicate n a).filterMap f = List.replicate n b := by
  intro n
  induction n with
  | zero => rfl
  | succ n ih => simp [List.replicate_succ, List.filterMap_cons, h, ih]

/-- Parsing an (n+1)-line headerless departments CSV: the 2-column sniff
matches "Engineering", the first column type-infers to integers, and the
grid has n+1 rows -- for every n, with no record-count restriction. -/
theorem parse_csv_replicate (n : Nat) :
    parse_csv_content (joinStrs "\n" (List.replicate (n+1) "1,Engineering")) =
      Except.ok ⟨["id", "department"],
        List.replicate (n+1) [Value.int 1, Value.str "Engineering"]⟩ := by
  have hsplit : splitChar '\n' (joinStrs "\n" (List.replicate (n+1) "1,Engineering")) =
      List.replicate (n+1) "1,Engineering" :=
    splitChar_joinStrs_replicate "1,Engineering" (by decide) n
  have hfil : (List.replicate (n+1) "1,Engineering").filter (fun l => !(l == "")) =
      List.replicate (n+1) "1,Engineering" :=
    filter_replicate_pos _ _ (by decide) _
  simp only [parse_csv_content]
  rw [hsplit, hfil, List.replicate_succ]
  dsimp only []
  simp only [List.map_cons, List.map_replicate]
  rw [show splitChar ',' "1,Engineering" = ["1", "Engineering"] from rfl]
  rw [show (["1", "Engineering"] : List String).length = 2 from rfl]
  have hcond : ((["1", "Engineering"] :: List.replicate n ["1", "Engineering"]).all
      (fun r => r.length == 2)) = true := by
    rw [all_cons_replicate]
    decide
  rw [if_pos hcond]
  have hci0 : colAllIntish (["1", "Engineering"] :: List.replicate n ["1", "Engineering"]) 0 = true := by
    unfold colAllIntish
    rw [all_cons_replicate]
    decide
  have hci1 : colAllIntish (["1", "Engineering"] :: List.replicate n ["1", "Engineering"]) 1 = false := by
    unfold colAllIntish
    rw [all_cons_replicate]
    decide
  have hm : (List.range 2).map (fun i =>
      cellToValue (colAllIntish (["1", "Engineering"] :: List.replicate n ["1", "Engineering"]) i)
        ((["1", "Engineering"] : List String).getD i "")) = [Value.int 1, Value.str "Engineering"] := by
    rw [show List.range 2 = [0, 1] from rfl]
    simp only [List.map_cons, List.map_nil]
    rw [hci0, hci1]
    decide
  rw [hm]
  rw [show inferColumns 2 ([Value.int 1, Value.str "Engineering"] ::
      List.replicate n [Value.int 1, Value.str "Engineering"]) = ["id", "department"] from rfl]
  rw [← List.replicate_succ]

/-- A non-empty list is not isEmpty. -/
theorem validated_isEmpty_false {validated : List Record} (hne : ¬(validated = [])) :
    validated.isEmpty = false := by
  cases validated
  · exact absurd rfl hne
  · rfl

/-- The CSV upload handler consults no record count: whenever parsing
succeeds, the table validator succeeds, and the validated list is
non-empty, the upload succeeds with the validated record count -- whatever
that count is. -/
theorem upload_csv_no_size_check (table filename content : String) (df : DataFrame)
    (v : DataFrame → Except String (List Record)) (validated : List Record)
    (hmem : table ∈ valid_tables) (hcsv : strEndsWith filename ".csv" = true)
    (hp : parse_csv_content content = Except.ok df)
    (hv : get_table_validator table = Except.ok v)
    (hval : v df = Except.ok validated) (hne : ¬(validated = [])) :
    upload_csv table filename content =
      HttpResponse.success ("Successfully uploaded " ++ toString validated.length ++
        " records to " ++ table) validated.length := by
  have hct : valid_tables.contains table = true := by simpa using hmem
  have hbody : upload_csv_body table content =
      PyResult.ok (HttpResponse.success ("Successfully uploaded " ++ toString validated.length ++
        " records to " ++ table) validated.length) := by
    simp only [upload_csv_body, hp, hv, hval, validated_isEmpty_false hne,
      Bool.false_eq_true, if_false]
  simp only [upload_csv, hct, hcsv, Bool.not_true, Bool.false_eq_true, if_false, hbody, handleExc]

/-- An (n+1)-row departments CSV uploads successfully with n+1 records
inserted, for every n: the CSV path never rejects on record count. -/
theorem csv_replicate_success (n : Nat) :
    upload_csv "departments" "data.csv" (joinStrs "\n" (List.replicate (n+1) "1,Engineering")) =
      HttpResponse.success ("Successfully uploaded " ++ toString (n+1) ++
        " records to " ++ "departments") (n+1) := by
  have hval : validate_departments_data
      ⟨["id", "department"], List.replicate (n+1) [Value.int 1, Value.str "Engineering"]⟩ =
      Except.ok (List.replicate (n+1) [("department", Value.str "Engineering")]) := by
    have : validate_departments_data
        ⟨["id", "department"], List.replicate (n+1) [Value.int 1, Value.str "Engineering"]⟩ =
        Except.ok ((List.replicate (n+1) [Value.int 1, Value.str "Engineering"]).filterMap
          (deptRow ["id", "department"])) := rfl
    rw [this, filterMap_replicate_some (deptRow ["id", "department"])
      [Value.int 1, Value.str "Engineering"]
      [("department", Value.str "Engineering")] rfl]
  have h := upload_csv_no_size_check "departments" "data.csv"
    (joinStrs "\n" (List.replicate (n+1) "1,Engineering"))
    ⟨["id", "department"], List.replicate (n+1) [Value.int 1, Value.str "Engineering"]⟩
    validate_departments_data
    (List.replicate (n+1) [("department", Value.str "Engineering")])
    (by decide) rfl (parse_csv_replicate n) rfl hval (by simp)
  rw [List.length_replicate] at h
  exact h

/-- C2 (amended): the batch-size guard lives only on the direct JSON
batch path.  validate_batch_data rejects 0 records ("Empty data list")
and more than 1000 records ("Batch size cannot exceed 1000 records")
before any validator work, and for a non-empty batch of at most 1000
records (so exactly 1000 passes and 1001 fails, boundary-exact) it hands
the converted grid straight to the table validator.  The CSV upload path
applies no record-count guard at all: its outcome is decided by parsing
and validation alone, a 1001-row departments CSV uploads successfully
with 1001 records inserted, and an empty CSV fails parsing with the
FormatError "Invalid CSV format: ...", not a SizeError. -/
theorem C2_amended :
    (∀ t, validate_batch_data [] t = Except.error "Empty data list") ∧
    (∀ data t, 1000 < (data : List Record).length →
      validate_batch_data data t = Except.error "Batch size cannot exceed 1000 records") ∧
    (∀ data t, ¬(data = ([] : List Record)) → (data : List Record).length ≤ 1000 →
      validate_batch_data data t =
        (match get_table_validator t with
         | Except.error e => Except.error e
         | Except.ok validator => validator (dictListToDf data))) ∧
    (∀ table filename content df v validated,
      table ∈ valid_tables → strEndsWith filename ".csv" = true →
      parse_csv_content content = Except.ok df →
      get_table_validator table = Except.ok v →
      v df = Except.ok validated → ¬(validated = []) →
      upload_csv table filename content =
        HttpResponse.success ("Successfully uploaded " ++ toString validated.length ++
          " records to " ++ table) validated.length) ∧
    upload_csv "departments" "data.csv" (joinStrs "\n" (List.replicate 1001 "1,Engineering")) =
      HttpResponse.success "Successfully uploaded 1001 records to departments" 1001 ∧
    upload_csv "departments" "data.csv" "" =
      HttpResponse.clientError "Invalid CSV format: No columns to parse from file" := by
  refine ⟨fun t => rfl, fun data t h => ?_, fun data t h1 h2 => ?_,
    fun table filename content df v validated hmem hcsv hp hv hval hne =>
      upload_csv_no_size_check table filename content df v validated hmem hcsv hp hv hval hne,
    (csv_replicate_success 1000).trans rfl, rfl⟩
  · match data with
    | [] => simp at h
    | d :: ds =>
      have hne : ¬((d :: ds).isEmpty = true) := by simp
      unfold validate_batch_data
      rw [if_neg hne, if_pos h]
  · match data with
    | [] => exact absurd rfl h1
    | d :: ds =>
      have hne : ¬((d :: ds).isEmpty = true) := by simp
      unfold validate_batch_data
      rw [if_neg hne, if_neg (Nat.not_lt.mpr h2)]

/-- Witness for C2: a 1001-record JSON batch is rejected by the guard
before any validation, a 2-record batch passes the guard with its result
exactly the validator's verdict on the converted grid, and a concrete
2-row CSV upload succeeds via the size-blind CSV path. -/
theorem C2_amended_witness :
    validate_batch_data (List.replicate 1001 [("department", Value.str "X")]) "departments" =
      Except.error "Batch size cannot exceed 1000 records" ∧
    validate_batch_data
        [[("department", Value.str "Engineering")], [("department", Value.str "Marketing")]]
        "departments" =
      (match get_table_validator "departments" with
       | Except.error e => Except.error e
       | Except.ok validator => validator (dictListToDf
           [[("department", Value.str "Engineering")], [("department", Value.str "Marketing")]])) ∧
    upload_csv "departments" "d.csv" "1,Engineering\n2,Sales" =
      HttpResponse.success ("Successfully uploaded " ++ toString
          ([[("department", Value.str "Engineering")], [("department", Value.str "Sales")]] :
            List Record).length ++ " records to " ++ "departments")
        ([[("department", Value.str "Engineering")], [("department", Value.str "Sales")]] :
          List Record).length :=
  ⟨C2_amended.2.1 (List.replicate 1001 [("department", Value.str "X")]) "departments"
     (by rw [List.length_replicate]; omega),
   C2_amended.2.2.1
     [[("department", Value.str "Engineering")], [("department", Value.str "Marketing")]]
     "departments" (by simp) (by simp),
   C2_amended.2.2.2.1 "departments" "d.csv" "1,Engineering\n2,Sales"
     ⟨["id", "department"], [[Value.int 1, Value.str "Engineering"], [Value.int 2, Value.str "Sales"]]⟩
     validate_departments_data
     [[("department", Value.str "Engineering")], [("department", Value.str "Sales")]]
     (by decide) rfl rfl rfl rfl (by simp)⟩
